import Mathlib

set_option maxRecDepth 40000

/-!
Verification development for the insight-report application (`src/app.py`).

The file embeds the program shallowly in Lean: the data-frame handling,
validation, visualization selection, prompt construction, completion-service
request, HTML report templating, and the per-action state transitions are
translated from `src/app.py`.  The Section Splitter component described in
the design document is not part of `src/app.py` (this variant embeds the raw
insight text in its report), so it is modelled from the specification text,
as marked on each such definition.
-/

/-- Modelled from the spec: the Section Splitter (design document §4.1) is
code of this repository that is absent from `src/app.py`.  This is its
trimming step: remove leading and trailing whitespace characters, as Python
`str.strip` does. -/
def trimL (l : List Char) : List Char :=
  ((l.dropWhile Char.isWhitespace).reverse.dropWhile Char.isWhitespace).reverse

/-- Modelled from the spec: splitting on the delimiter of two consecutive
newline characters, as Python `str.split` with a two-character separator:
left-to-right, non-overlapping, keeping empty pieces.  The first argument
accumulates the current piece in reverse. -/
def blocksAux : List Char → List Char → List (List Char)
  | acc, [] => [acc.reverse]
  | acc, '\n' :: '\n' :: rest => acc.reverse :: blocksAux [] rest
  | acc, c :: rest => blocksAux (c :: acc) rest

/-- Modelled from the spec: the ordered sequence of raw blocks obtained by
splitting the insight text on two consecutive newline characters. -/
def splitOnDoubleNewline (s : List Char) : List (List Char) :=
  blocksAux [] s

/-- A Section: a titled block of text destined for one slide or one report
subsection (design document §3). -/
structure Section where
  title : String
  body : String
deriving DecidableEq, Repr

/-- Modelled from the spec: the per-block step of the Section Splitter.
Trim the raw block; if the trimmed result is empty, produce no Section;
otherwise split the surviving block on single newline into lines, the first
line becoming the title and the remaining lines, rejoined with single
newlines, the body. -/
def sectionOfBlock (block : List Char) : Option Section :=
  let b := trimL block
  if b = [] then none
  else
    let lines := b.splitOn '\n'
    some ⟨String.mk (lines.headD []), String.mk (List.intercalate ['\n'] lines.tail)⟩

/-- Modelled from the spec: the Section Splitter.  Split the insight text on
two consecutive newline characters into ordered raw blocks, and keep, in
original order, the Section produced by each surviving block. -/
def splitSections (text : String) : List Section :=
  (splitOnDoubleNewline text.data).filterMap sectionOfBlock

/-- Pandas column dtypes relevant to `src/app.py`: the two dtypes its
`select_dtypes(include=['float64', 'int64'])` calls recognize as numeric,
two further numeric dtypes it does not recognize, object (strings), and
datetime64. -/
inductive Dtype
  | float64
  | int64
  | int32
  | float32
  | object
  | datetime64
deriving DecidableEq, Repr

/-- A data-frame column: its name and dtype, the two attributes
`src/app.py` branches on. -/
structure Column where
  name : String
  dtype : Dtype
deriving DecidableEq, Repr

/-- A data frame: the column list and the number of rows. -/
structure DataFrame where
  cols : List Column
  nrows : Nat
deriving DecidableEq, Repr

/-- Pandas `DataFrame.empty`: true when either axis has length zero. -/
def DataFrame.empty (d : DataFrame) : Bool :=
  d.nrows = 0 || d.cols.isEmpty

/-- Embeds `data.select_dtypes(include=['float64', 'int64']).columns` as
used in `validate_data` (line 19) and `generate_visualizations` (line 59)
of `src/app.py`. -/
def numericColumns (d : DataFrame) : List Column :=
  d.cols.filter fun c => c.dtype == Dtype.float64 || c.dtype == Dtype.int64

/-- Embeds `data.select_dtypes(include=['datetime64']).columns` as used in
`generate_visualizations` (line 64) of `src/app.py`. -/
def dateColumns (d : DataFrame) : List Column :=
  d.cols.filter fun c => c.dtype == Dtype.datetime64

/-- Embeds `validate_data` of `src/app.py` (lines 12-24).  The boolean is
the return value; the string list collects the `st.error` messages shown to
the user. -/
def validate_data (data : DataFrame) : Bool × List String :=
  if data.empty then
    (false, ["The uploaded file contains no data"])
  else if (numericColumns data).length = 0 then
    (false, ["The data must contain at least one numeric column"])
  else
    (true, [])

/-- The kind of a plotly figure produced by `generate_visualizations`. -/
inductive FigKind
  | line
  | histogram
deriving DecidableEq, Repr

/-- A chart description: kind, x column, optional y column, and title, the
arguments `src/app.py` passes to `px.line` and `px.histogram`. -/
structure Figure where
  kind : FigKind
  x : String
  y : Option String
  title : String
deriving DecidableEq, Repr

/-- Embeds `generate_visualizations` of `src/app.py` (lines 57-78): when at
least one numeric (float64/int64) column exists, one line chart per numeric
column against the first datetime64 column when one exists, followed by one
histogram per numeric column. -/
def generate_visualizations (data : DataFrame) : List Figure :=
  let numeric := numericColumns data
  if numeric.length > 0 then
    let lineFigs :=
      match dateColumns data with
      | [] => []
      | dateCol :: _ =>
        numeric.map fun nc =>
          ⟨FigKind.line, dateCol.name, some nc.name, nc.name ++ " Over Time"⟩
    lineFigs ++ numeric.map fun c =>
      ⟨FigKind.histogram, c.name, none, "Distribution of " ++ c.name⟩
  else
    []

/-- One chat message of the completion-service request. -/
structure Message where
  role : String
  content : String
deriving DecidableEq, Repr

/-- A completion-service request as assembled by `client.messages.create`
in `src/app.py` (lines 46-53): model name, token ceiling, message list, and
whether streaming is requested (the call passes no `stream` argument, so
the SDK default, non-streaming, applies). -/
structure Request where
  model : String
  max_tokens : Nat
  messages : List Message
  stream : Bool
deriving DecidableEq, Repr

/-- First literal chunk of the prompt f-string of `generate_insights`
(`src/app.py` lines 28-32), up to the `data.describe()` interpolation. -/
def promptChunk1 : String :=
  "\n    You are a business analyst. Please analyze this data and provide key insights:\n    \n    Data Summary:\n    "

/-- Second literal chunk of the prompt f-string (lines 33-35), between the
`data.describe()` and column-list interpolations. -/
def promptChunk2 : String :=
  "\n    \n    Columns in the dataset:\n    "

/-- Final literal chunk of the prompt f-string (lines 36-44). -/
def promptChunk3 : String :=
  "\n    \n    Please provide:\n    1. Key trends and patterns in the data\n    2. Notable observations\n    3. Business recommendations based on the data\n    4. Potential areas of concern or opportunity\n    \n    Format your response in clear sections with bullet points where appropriate.\n    "

/-- Embeds the prompt construction of `generate_insights` (`src/app.py`
lines 28-44), with the external `data.describe()` rendering passed in as a
string and `', '.join(data.columns)` expanded. -/
def buildPrompt (describeStr : String) (colNames : List String) : String :=
  promptChunk1 ++ describeStr ++ promptChunk2 ++ String.intercalate (", ") colNames ++ promptChunk3

/-- Embeds the `client.messages.create` call of `generate_insights`
(`src/app.py` lines 46-53): the fixed model, `max_tokens=1000`, and a
single user message carrying the prompt. -/
def insightsRequest (prompt : String) : Request :=
  { model := "claude-3-sonnet-20240229"
    max_tokens := 1000
    messages := [{ role := "user", content := prompt }]
    stream := false }

/-- Embeds `generate_insights` of `src/app.py` (lines 26-55).  The
completion service is an oracle from requests to response text
(`response.content[0].text` is returned raw); pandas `describe` is an
oracle from frames to strings. -/
def generate_insights (complete : Request → String) (describe : DataFrame → String)
    (data : DataFrame) : String :=
  complete (insightsRequest (buildPrompt (describe data) (data.cols.map Column.name)))

/-- First literal chunk of the report f-string of `generate_report`
(`src/app.py` lines 86-98), up to the timestamp interpolation.  The doubled
braces of the Python f-string denote literal braces. -/
def reportChunk1 : String :=
  "\n    <html>\n        <head>\n            <title>Business Analysis Report</title>\n            <style>\n                body \x7b font-family: Arial, sans-serif; margin: 40px; \x7d\n                .section \x7b margin-bottom: 30px; \x7d\n                .insights \x7b background-color: #f5f5f5; padding: 20px; border-radius: 5px; \x7d\n            </style>\n        </head>\n        <body>\n            <h1>Business Analysis Report</h1>\n            <p>Generated on: "

/-- Second literal chunk of the report f-string (lines 98-103), between the
timestamp and the `{insights}` interpolation. -/
def reportChunk2 : String :=
  "</p>\n            \n            <div class=\"section\">\n                <h2>AI Insights</h2>\n                <div class=\"insights\">\n                    "

/-- Third literal chunk of the report f-string (lines 103-109), between
`{insights}` and the joined figure fragments. -/
def reportChunk3 : String :=
  "\n                </div>\n            </div>\n            \n            <div class=\"section\">\n                <h2>Data Visualization</h2>\n                "

/-- Fourth literal chunk of the report f-string (lines 109-114), between
the figure fragments and the `data.describe().to_html()` interpolation. -/
def reportChunk4 : String :=
  "\n            </div>\n            \n            <div class=\"section\">\n                <h2>Data Summary</h2>\n                "

/-- Final literal chunk of the report f-string (lines 114-118). -/
def reportChunk5 : String :=
  "\n            </div>\n        </body>\n    </html>\n    "

/-- Embeds the report f-string of `generate_report` (`src/app.py` lines
86-118): the five literal chunks interleaved, in source order, with the
timestamp, the insight text, the concatenation (`"".join`) of the figure
HTML fragments, and the summary table HTML. -/
def reportHtml (now insights : String) (figsHtml : List String) (summaryHtml : String) : String :=
  reportChunk1 ++ now ++ reportChunk2 ++ insights ++ reportChunk3 ++ String.join figsHtml
    ++ reportChunk4 ++ summaryHtml ++ reportChunk5

/-- Embeds `generate_report` of `src/app.py` (lines 80-119): generate the
insight text and the figures, then fill the template.  `figToHtml` stands
for plotly `fig.to_html()` and `describeToHtml` for pandas
`data.describe().to_html()`, both external. -/
def generate_report (complete : Request → String) (describe : DataFrame → String)
    (figToHtml : Figure → String) (describeToHtml : DataFrame → String)
    (now : String) (data : DataFrame) : String :=
  let insights := generate_insights complete describe data
  let figures := generate_visualizations data
  reportHtml now insights (figures.map figToHtml) (describeToHtml data)

/-- Embeds the date-conversion loop of `main` (`src/app.py` lines 149-155):
each object-dtype column is passed to `pd.to_datetime` inside a
`try/except: pass`; `parses` is the oracle telling whether that call
succeeds, in which case the column's dtype becomes datetime64. -/
def convertDateColumns (parses : Column → Bool) (cols : List Column) : List Column :=
  cols.map fun c =>
    if c.dtype == Dtype.object then
      if parses c then { c with dtype := Dtype.datetime64 } else c
    else c

/-- The in-memory application state: the single `st.session_state['data']`
slot of `src/app.py`. -/
structure AppState where
  dataset : Option DataFrame
deriving DecidableEq, Repr

/-- Embeds the upload branch of `main` (`src/app.py` lines 141-161).  The
external file read/parse is an oracle result: on success the converted
frame is stored and a success message shown; on failure the caught
exception is shown via `st.error` and the state is left untouched.  The
second component lists the messages displayed. -/
def uploadAction (parses : Column → Bool) (readResult : Except String DataFrame)
    (s : AppState) : AppState × List String :=
  match readResult with
  | Except.error e => (s, ["Error reading file: " ++ e])
  | Except.ok d =>
    ({ dataset := some { d with cols := convertDateColumns parses d.cols } },
     ["File uploaded successfully!"])

/-- Embeds the generate-report branch of `main` (`src/app.py` lines
180-199): the wrapped `generate_report` call is an oracle result; on
failure the caught exception is shown via `st.error`; in neither case is
the stored dataset modified. -/
def reportAction (genResult : Except String String) (s : AppState) : AppState × List String :=
  match genResult with
  | Except.error e => (s, ["Error generating report: " ++ e])
  | Except.ok _ => (s, [])

/-- Embeds the report gate of `main` (`src/app.py` lines 179-184): the
first component tells whether `generate_report` is reached (validation
passed and the button clicked); the second lists the validation error
messages shown. -/
def mainReportGate (d : DataFrame) (clicked : Bool) : Bool × List String :=
  let v := validate_data d
  (v.1 && clicked, v.2)

/-- The completion-service client, holding the API key it was constructed
with. -/
structure Client where
  api_key : String
deriving DecidableEq, Repr

/-- Embeds `st.secrets[key]`: a lookup in the configuration store that
raises (here: returns an error) when the key is absent. -/
def st_secrets (store : String → Option String) (key : String) : Except String String :=
  match store key with
  | some v => Except.ok v
  | none => Except.error key

/-- Embeds the module-level client construction of `src/app.py` (line 10):
`client = Anthropic(api_key=st.secrets["ANTHROPIC_API_KEY"])`, run at
process start before any user action. -/
def initClient (store : String → Option String) : Except String Client :=
  match st_secrets store ("ANTHROPIC_API_KEY") with
  | Except.ok k => Except.ok ⟨k⟩
  | Except.error e => Except.error e

/-- Decidable test that the first list starts the second. -/
def listStartsWith : List Char → List Char → Bool
  | [], _ => true
  | _ :: _, [] => false
  | a :: as, b :: bs => a == b && listStartsWith as bs

/-- Decidable test that the first list occurs contiguously inside the
second. -/
def listHasInfix (pat : List Char) : List Char → Bool
  | [] => listStartsWith pat []
  | c :: rest => listStartsWith pat (c :: rest) || listHasInfix pat rest

/-- A decidable substring test used to state the report-layout claim. -/
def containsStr (pat s : String) : Bool :=
  listHasInfix pat.data s.data

example : splitSections ("A\nB\n\nC") = [⟨"A", "B"⟩, ⟨"C", ""⟩] := by decide

example : splitSections ("") = [] := by decide

example : splitSections ("   ") = [] := by decide

example : splitSections ("Title only") = [⟨"Title only", ""⟩] := by decide

example : splitSections ("a\n\n\nb") = [⟨"a", ""⟩, ⟨"b", ""⟩] := by decide

/-- Every element of every piece produced by `splitOnP` fails the
predicate. -/
theorem not_of_mem_splitOnP {α : Type} {p : α → Bool} :
    ∀ l : List α, ∀ piece ∈ l.splitOnP p, ∀ a ∈ piece, ¬ p a := by
  intro l
  induction l with
  | nil =>
    intro piece hp a ha
    rw [List.splitOnP_nil] at hp
    rcases List.mem_singleton.mp hp with rfl
    simp at ha
  | cons x xs ih =>
    intro piece hp a ha
    rw [List.splitOnP_cons] at hp
    by_cases hx : p x
    · rw [if_pos hx] at hp
      rcases List.mem_cons.mp hp with rfl | h
      · simp at ha
      · exact ih piece h a ha
    · rw [if_neg hx] at hp
      rcases hys : xs.splitOnP p with _ | ⟨y0, yt⟩
      · exact absurd hys (List.splitOnP_ne_nil p xs)
      · rw [hys, List.modifyHead_cons] at hp
        rcases List.mem_cons.mp hp with rfl | h
        · rcases List.mem_cons.mp ha with rfl | h'
          · exact hx
          · exact ih y0 (by rw [hys]; exact List.mem_cons_self _ _) a h'
        · exact ih piece (by rw [hys]; exact List.mem_cons_of_mem _ h) a ha

/-- The separator occurs in no piece produced by `splitOn`. -/
theorem not_mem_of_mem_splitOn {α : Type} [DecidableEq α] {l : List α} {x : α}
    {piece : List α} (hp : piece ∈ l.splitOn x) : x ∉ piece := by
  intro hx
  have h := not_of_mem_splitOnP l piece (by simpa [List.splitOn] using hp) x hx
  simp at h

/-- Wrapping each kept value in `some` exhibits `filterMap` output as an
order-preserving subsequence of the pointwise results. -/
theorem filterMap_map_some_sublist {α β : Type} (f : α → Option β) :
    ∀ l : List α, ((l.filterMap f).map some).Sublist (l.map f) := by
  intro l
  induction l with
  | nil => simp
  | cons a l ih =>
    cases hfa : f a with
    | none =>
      rw [List.filterMap_cons_none hfa, List.map_cons, hfa]
      exact ih.cons _
    | some b =>
      rw [List.filterMap_cons_some hfa, List.map_cons, List.map_cons, hfa]
      exact ih.cons₂ _

/-- The length of a `filterMap` equals the number of inputs on which the
function succeeds. -/
theorem length_filterMap_eq_countP {α β : Type} (f : α → Option β) :
    ∀ l : List α, (l.filterMap f).length = l.countP (fun a => (f a).isSome) := by
  intro l
  induction l with
  | nil => simp
  | cons a l ih =>
    cases hfa : f a with
    | none =>
      rw [List.filterMap_cons_none hfa, List.countP_cons, hfa]
      simp [ih]
    | some b =>
      rw [List.filterMap_cons_some hfa, List.countP_cons, hfa]
      simp [ih]

/-- A raw block produces no Section exactly when its trimmed content is
empty. -/
theorem sectionOfBlock_eq_none_iff (block : List Char) :
    sectionOfBlock block = none ↔ trimL block = [] := by
  by_cases hb : trimL block = [] <;> simp [sectionOfBlock, hb]

/-- Structure of the Section produced by a surviving raw block: the title
is the first line of the trimmed block, the body is the remaining lines
rejoined with single newlines, the title contains no newline, and title and
body together reconstruct the whole trimmed block. -/
theorem sectionOfBlock_eq_some {block : List Char} {s : Section}
    (h : sectionOfBlock block = some s) :
    s.title.data = ((trimL block).splitOn '\n').headD []
    ∧ s.body.data = List.intercalate ['\n'] ((trimL block).splitOn '\n').tail
    ∧ List.intercalate ['\n'] (s.title.data :: ((trimL block).splitOn '\n').tail) = trimL block
    ∧ '\n' ∉ s.title.data := by
  by_cases hb : trimL block = []
  · simp [sectionOfBlock, hb] at h
  · rcases hsp : (trimL block).splitOn '\n' with _ | ⟨l0, rest⟩
    · exact absurd (by simpa [List.splitOn] using hsp) (List.splitOnP_ne_nil _ (trimL block))
    · have hrec : List.intercalate ['\n'] ((trimL block).splitOn '\n') = trimL block :=
        List.intercalate_splitOn (trimL block) '\n'
      simp only [sectionOfBlock, hb, if_neg, ite_false] at h
      rw [hsp] at h
      cases h
      refine ⟨rfl, rfl, ?_, ?_⟩
      · rw [hsp] at hrec
        simpa using hrec
      · exact not_mem_of_mem_splitOn (by rw [hsp]; exact List.mem_cons_self _ _)

/-- C1 (amended).  The Section Splitter — modelled from the spec, since in
this variant `generate_report` embeds the raw insight text and does not
invoke it — produces from each input exactly the sections of the surviving
blocks of the double-newline split, in original block order with no
reordering, deduplication or truncation; each section's title is the first
line of its trimmed block and its body the remaining lines rejoined with
single newlines, so that title and body together reconstruct the trimmed
block. -/
theorem claim_C1 : ∀ text : String,
    ((splitSections text).map some).Sublist
      ((splitOnDoubleNewline text.data).map sectionOfBlock)
    ∧ (splitSections text).length
        = (splitOnDoubleNewline text.data).countP (fun b => !(trimL b).isEmpty)
    ∧ ∀ s ∈ splitSections text, ∃ block ∈ splitOnDoubleNewline text.data,
        sectionOfBlock block = some s
        ∧ s.title.data = ((trimL block).splitOn '\n').headD []
        ∧ s.body.data = List.intercalate ['\n'] ((trimL block).splitOn '\n').tail
        ∧ List.intercalate ['\n'] (s.title.data :: ((trimL block).splitOn '\n').tail)
            = trimL block
        ∧ '\n' ∉ s.title.data := by
  intro text
  refine ⟨filterMap_map_some_sublist _ _, ?_, ?_⟩
  · rw [splitSections, length_filterMap_eq_countP]
    apply List.countP_congr
    intro b _
    by_cases hb : trimL b = [] <;> simp [sectionOfBlock, hb]
  · intro s hs
    rcases List.mem_filterMap.mp hs with ⟨block, hbm, hbs⟩
    rcases sectionOfBlock_eq_some hbs with ⟨h1, h2, h3, h4⟩
    exact ⟨block, hbm, hbs, h1, h2, h3, h4⟩

/-- Witness for C1 at the spec's own example input. -/
theorem witness_C1 :
    ∃ block ∈ splitOnDoubleNewline (String.data ("A\nB\n\nC")),
      sectionOfBlock block = some ⟨"A", "B"⟩
      ∧ (Section.mk ("A") ("B")).title.data = ((trimL block).splitOn '\n').headD []
      ∧ (Section.mk ("A") ("B")).body.data
          = List.intercalate ['\n'] ((trimL block).splitOn '\n').tail
      ∧ List.intercalate ['\n']
          ((Section.mk ("A") ("B")).title.data :: ((trimL block).splitOn '\n').tail)
          = trimL block
      ∧ '\n' ∉ (Section.mk ("A") ("B")).title.data :=
  (claim_C1 ("A\nB\n\nC")).2.2 ⟨"A", "B"⟩ (by decide)

/-- C2.  A raw block produces no Section exactly when its trimmed content
is empty; consequently the splitter returns the empty sequence exactly when
every block trims to empty, and in particular on the empty string and on an
all-whitespace string. -/
theorem claim_C2 :
    (∀ block : List Char, trimL block = [] → sectionOfBlock block = none)
    ∧ (∀ text : String,
        splitSections text = [] ↔ ∀ b ∈ splitOnDoubleNewline text.data, trimL b = [])
    ∧ splitSections ("") = [] ∧ splitSections ("   ") = [] := by
  refine ⟨?_, ?_, by decide, by decide⟩
  · intro block hb
    exact (sectionOfBlock_eq_none_iff block).mpr hb
  · intro text
    rw [splitSections, List.filterMap_eq_nil_iff]
    constructor
    · intro h b hb
      exact (sectionOfBlock_eq_none_iff b).mp (h b hb)
    · intro h b hb
      exact (sectionOfBlock_eq_none_iff b).mpr (h b hb)

/-- Witness for C2: an all-whitespace block produces no Section. -/
theorem witness_C2 : sectionOfBlock (String.data ("   ")) = none :=
  claim_C2.1 (String.data ("   ")) (by decide)

/-- C3.  The Section Splitter is a total pure function: on every input
string it yields a well-defined SectionSequence whose length is bounded by
the number of blocks, every section of which comes from one of the blocks,
and identical inputs always yield identical outputs. -/
theorem claim_C3 : ∀ s : String,
    (splitSections s).length ≤ (splitOnDoubleNewline s.data).length
    ∧ (∀ sec ∈ splitSections s, ∃ b ∈ splitOnDoubleNewline s.data,
        sectionOfBlock b = some sec)
    ∧ ∀ t : String, s = t → splitSections s = splitSections t := by
  intro s
  refine ⟨List.length_filterMap_le _ _, ?_, ?_⟩
  · intro sec hsec
    rcases List.mem_filterMap.mp hsec with ⟨b, hbm, hbs⟩
    exact ⟨b, hbm, hbs⟩
  · intro t ht
    rw [ht]

/-- Witness for C3 at a concrete malformed input. -/
theorem witness_C3 :
    ∃ b ∈ splitOnDoubleNewline (String.data ("Title only")),
      sectionOfBlock b = some ⟨"Title only", ""⟩ :=
  (claim_C3 ("Title only")).2.1 ⟨"Title only", ""⟩ (by decide)

/-- Counterexample to C1 as stated: in this variant the report is not
rendered from a SectionSequence.  The inputs "A" and " A" have identical
section sequences, yet `generate_report`'s template produces different
reports for them (the raw insight text is embedded), so no rendering
function of the split sections can account for the report. -/
theorem counterexample_C1 :
    ¬ ∃ f : List Section → String,
        ∀ ins : String, reportHtml ("") ins [] ("") = f (splitSections ins) := by
  intro h
  obtain ⟨f, hf⟩ := h
  have h1 := hf ("A")
  have h2 := hf (" A")
  have hsplit : splitSections (" A") = splitSections ("A") := by decide
  rw [hsplit] at h2
  have heq : reportHtml ("") ("A") [] ("") = reportHtml ("") (" A") [] ("") :=
    h1.trans h2.symm
  exact absurd heq (by decide)

/-- C4.  For an empty dataset, or one with no float64/int64 column,
`main`'s gate shows a validation error and never reaches
`generate_report`, whatever the button state. -/
theorem claim_C4 : ∀ (d : DataFrame) (clicked : Bool),
    d.empty = true ∨ numericColumns d = [] →
    (mainReportGate d clicked).1 = false ∧ (mainReportGate d clicked).2 ≠ [] := by
  intro d clicked h
  rcases h with h | h
  · constructor <;> simp [mainReportGate, validate_data, h]
  · by_cases he : d.empty
    · constructor <;> simp [mainReportGate, validate_data, he]
    · constructor <;> simp [mainReportGate, validate_data, he, h]

/-- Witness for C4: a non-empty frame with a single object column. -/
theorem witness_C4 :
    (mainReportGate ⟨[⟨"label", Dtype.object⟩], 3⟩ true).1 = false
    ∧ (mainReportGate ⟨[⟨"label", Dtype.object⟩], 3⟩ true).2 ≠ [] :=
  claim_C4 ⟨[⟨"label", Dtype.object⟩], 3⟩ true (by decide)

/-- C5.  The generated report is one static template: a fixed prefix with
the header and the generated-timestamp line, then the raw insight text
returned by the completion service inside the "AI Insights" block, then the
joined chart fragments inside the "Data Visualization" block, then the
numeric-summary table inside the "Data Summary" block, in that order. -/
theorem claim_C5 : ∀ (complete : Request → String) (describe : DataFrame → String)
    (figToHtml : Figure → String) (describeToHtml : DataFrame → String)
    (now : String) (d : DataFrame),
    ∃ p1 p2 p3 p4 p5 : String,
      generate_report complete describe figToHtml describeToHtml now d
        = p1 ++ now ++ p2 ++ generate_insights complete describe d ++ p3
          ++ String.join ((generate_visualizations d).map figToHtml) ++ p4
          ++ describeToHtml d ++ p5
      ∧ containsStr ("<h1>Business Analysis Report</h1>") p1 = true
      ∧ containsStr ("<p>Generated on: ") p1 = true
      ∧ containsStr ("<h2>AI Insights</h2>") p2 = true
      ∧ containsStr ("<h2>Data Visualization</h2>") p3 = true
      ∧ containsStr ("<h2>Data Summary</h2>") p4 = true := by
  intro complete describe figToHtml describeToHtml now d
  refine ⟨reportChunk1, reportChunk2, reportChunk3, reportChunk4, reportChunk5,
    rfl, by decide, by decide, by decide, by decide, by decide⟩

/-- Witness for C5 at concrete oracles and data. -/
theorem witness_C5 :
    ∃ p1 p2 p3 p4 p5 : String,
      generate_report (fun _ => ("INSIGHT")) (fun _ => ("DESC")) (fun _ => ("<fig>"))
          (fun _ => ("<table>")) ("2024-01-01") ⟨[⟨"Sales", Dtype.float64⟩], 4⟩
        = p1 ++ ("2024-01-01") ++ p2
          ++ generate_insights (fun _ => ("INSIGHT")) (fun _ => ("DESC"))
              ⟨[⟨"Sales", Dtype.float64⟩], 4⟩ ++ p3
          ++ String.join ((generate_visualizations ⟨[⟨"Sales", Dtype.float64⟩], 4⟩).map
              (fun _ => ("<fig>"))) ++ p4
          ++ ("<table>") ++ p5
      ∧ containsStr ("<h1>Business Analysis Report</h1>") p1 = true
      ∧ containsStr ("<p>Generated on: ") p1 = true
      ∧ containsStr ("<h2>AI Insights</h2>") p2 = true
      ∧ containsStr ("<h2>Data Visualization</h2>") p3 = true
      ∧ containsStr ("<h2>Data Summary</h2>") p4 = true :=
  claim_C5 (fun _ => ("INSIGHT")) (fun _ => ("DESC")) (fun _ => ("<fig>"))
    (fun _ => ("<table>")) ("2024-01-01") ⟨[⟨"Sales", Dtype.float64⟩], 4⟩

/-- C6.  Every completion-service request carries exactly one user message
holding the one prompt string, a token ceiling within 1000-1500 (the code
sets 1000), and no streaming. -/
theorem claim_C6 : ∀ prompt : String,
    1000 ≤ (insightsRequest prompt).max_tokens
    ∧ (insightsRequest prompt).max_tokens ≤ 1500
    ∧ (insightsRequest prompt).messages = [⟨"user", prompt⟩]
    ∧ (insightsRequest prompt).stream = false := by
  intro prompt
  exact ⟨Nat.le_refl 1000, (by decide : (1000 : Nat) ≤ 1500), rfl, rfl⟩

/-- Witness for C6 at a concrete prompt. -/
theorem witness_C6 :
    1000 ≤ (insightsRequest ("analyze this")).max_tokens
    ∧ (insightsRequest ("analyze this")).max_tokens ≤ 1500
    ∧ (insightsRequest ("analyze this")).messages = [⟨"user", "analyze this"⟩]
    ∧ (insightsRequest ("analyze this")).stream = false :=
  claim_C6 ("analyze this")

/-- C7.  When the wrapped external call of an action fails, the caught
failure becomes a user-visible inline error message and the in-memory
state, in particular the stored dataset, is exactly what it was before the
action. -/
theorem claim_C7 : ∀ (parses : Column → Bool) (s : AppState) (e : String),
    (uploadAction parses (Except.error e) s).1 = s
    ∧ (uploadAction parses (Except.error e) s).2 = ["Error reading file: " ++ e]
    ∧ (reportAction (Except.error e) s).1 = s
    ∧ (reportAction (Except.error e) s).2 = ["Error generating report: " ++ e] := by
  intro parses s e
  exact ⟨rfl, rfl, rfl, rfl⟩

/-- Witness for C7 at a concrete failing call. -/
theorem witness_C7 :
    (uploadAction (fun _ => true) (Except.error ("bad csv")) ⟨none⟩).1 = ⟨none⟩
    ∧ (uploadAction (fun _ => true) (Except.error ("bad csv")) ⟨none⟩).2
        = ["Error reading file: " ++ "bad csv"]
    ∧ (reportAction (Except.error ("bad csv")) ⟨none⟩).1 = ⟨none⟩
    ∧ (reportAction (Except.error ("bad csv")) ⟨none⟩).2
        = ["Error generating report: " ++ "bad csv"] :=
  claim_C7 (fun _ => true) ⟨none⟩ ("bad csv")

/-- C8.  The client is constructed at process start from the configuration
store: when the key is absent the construction fails (fatal before any
user action), and when present the client holds exactly the stored value,
not a source literal. -/
theorem claim_C8 : ∀ store : String → Option String,
    (store ("ANTHROPIC_API_KEY") = none →
      initClient store = Except.error ("ANTHROPIC_API_KEY"))
    ∧ ∀ k, store ("ANTHROPIC_API_KEY") = some k → initClient store = Except.ok ⟨k⟩ := by
  intro store
  constructor
  · intro h
    simp [initClient, st_secrets, h]
  · intro k h
    simp [initClient, st_secrets, h]

/-- Witness for C8: an empty store is fatal; a populated store yields a
client holding the stored key. -/
theorem witness_C8 :
    initClient (fun _ => none) = Except.error ("ANTHROPIC_API_KEY")
    ∧ initClient (fun _ => some ("sk-123")) = Except.ok ⟨"sk-123"⟩ :=
  ⟨(claim_C8 (fun _ => none)).1 rfl, (claim_C8 (fun _ => some ("sk-123"))).2 ("sk-123") rfl⟩

/-- C9.  Numeric detection recognizes only float64 and int64: a non-empty
frame none of whose columns has one of those two dtypes is rejected with
the non-numeric validation error, and no figures are produced for it. -/
theorem claim_C9 : ∀ d : DataFrame, d.empty = false →
    (∀ c ∈ d.cols, c.dtype ≠ Dtype.float64 ∧ c.dtype ≠ Dtype.int64) →
    validate_data d = (false, ["The data must contain at least one numeric column"])
    ∧ generate_visualizations d = [] := by
  intro d hne h
  have hnum : numericColumns d = [] := by
    rw [numericColumns, List.filter_eq_nil_iff]
    intro c hc
    simp [(h c hc).1, (h c hc).2]
  constructor
  · simp [validate_data, hne, hnum]
  · simp [generate_visualizations, hnum]

/-- Witness for C9: a frame whose numeric data is int32 and float32. -/
theorem witness_C9 :
    validate_data ⟨[⟨"a", Dtype.int32⟩, ⟨"b", Dtype.float32⟩], 2⟩
      = (false, ["The data must contain at least one numeric column"])
    ∧ generate_visualizations ⟨[⟨"a", Dtype.int32⟩, ⟨"b", Dtype.float32⟩], 2⟩ = [] :=
  claim_C9 ⟨[⟨"a", Dtype.int32⟩, ⟨"b", Dtype.float32⟩], 2⟩ (by decide) (by decide)

/-- C10.  On a successful upload the converted frame is stored; the
conversion keeps every non-object column and every object column whose
parse fails unchanged, and turns every object column whose parse succeeds
into a datetime64 column of the same name, which is thereby selected as a
date column of the stored frame. -/
theorem claim_C10 : ∀ (parses : Column → Bool) (d : DataFrame) (s : AppState)
    (i : Nat) (hi : i < d.cols.length),
    (convertDateColumns parses d.cols).length = d.cols.length
    ∧ (uploadAction parses (Except.ok d) s).1.dataset
        = some ⟨convertDateColumns parses d.cols, d.nrows⟩
    ∧ (d.cols[i].dtype ≠ Dtype.object →
        (convertDateColumns parses d.cols)[i]? = some d.cols[i])
    ∧ (d.cols[i].dtype = Dtype.object → parses d.cols[i] = false →
        (convertDateColumns parses d.cols)[i]? = some d.cols[i])
    ∧ (d.cols[i].dtype = Dtype.object → parses d.cols[i] = true →
        (convertDateColumns parses d.cols)[i]? = some ⟨d.cols[i].name, Dtype.datetime64⟩
        ∧ (⟨d.cols[i].name, Dtype.datetime64⟩ : Column)
            ∈ dateColumns ⟨convertDateColumns parses d.cols, d.nrows⟩) := by
  intro parses d s i hi
  have hmap : (convertDateColumns parses d.cols)[i]?
      = Option.map (fun c =>
          if c.dtype == Dtype.object then
            if parses c then { c with dtype := Dtype.datetime64 } else c
          else c) d.cols[i]? := by
    rw [convertDateColumns, List.getElem?_map]
  have hgi : d.cols[i]? = some d.cols[i] := List.getElem?_eq_getElem hi
  refine ⟨by simp [convertDateColumns], rfl, ?_, ?_, ?_⟩
  · intro hobj
    rw [hmap, hgi]
    simp [hobj]
  · intro hobj hp
    rw [hmap, hgi]
    simp [hobj, hp]
  · intro hobj hp
    have hval : (convertDateColumns parses d.cols)[i]?
        = some ⟨d.cols[i].name, Dtype.datetime64⟩ := by
      rw [hmap, hgi]
      simp [hobj, hp]
    refine ⟨hval, ?_⟩
    rw [dateColumns]
    exact List.mem_filter.mpr ⟨List.getElem?_mem hval, by simp⟩

/-- Witness for C10: a parseable string column becomes datetime64 and is
selected as a date column. -/
theorem witness_C10 :
    (convertDateColumns (fun _ => true) [⟨"Date", Dtype.object⟩])[0]?
      = some ⟨"Date", Dtype.datetime64⟩
    ∧ (⟨"Date", Dtype.datetime64⟩ : Column)
        ∈ dateColumns ⟨convertDateColumns (fun _ => true) [⟨"Date", Dtype.object⟩], 5⟩ :=
  (claim_C10 (fun _ => true) ⟨[⟨"Date", Dtype.object⟩], 5⟩ ⟨none⟩ 0 (by decide)).2.2.2.2
    (by decide) (by decide)
